import Mathlib

/-!
Verification of the data-acquisition and consistency layer of a
stock-watchlist dashboard (fetch transport with retry/backoff, batch
orchestrators, watchlist and chart controllers, demo-series generator).

Shallow embedding conventions:
* JS numbers that carry prices are modelled as `ℚ` (no claim here depends
  on float rounding behaviour).
* A single network attempt is modelled as an oracle value of type
  `HttpAttempt`: either a response with a status code and a parsed body,
  or a thrown exception (`abortErr` for DOMException AbortError,
  `netErr` for any other rejection, which also covers body-parse
  failures).
* `fetch`-level time (`sleep`) is modelled by recording the list of
  back-off durations (in ms) a call performs.
* ISO date strings (`toISOString().split('T')[0]`) are modelled by their
  UTC day number (an `Int`): two such strings compare equal/less exactly
  as their day numbers do.
-/

set_option autoImplicit false

namespace StockDashboard

/-- Error messages from `src/utils/constants.ts` (`ERROR_MESSAGES`). -/
def msgApiKeyMissing : String :=
  "API key not found. Please add REACT_APP_FINNHUB_API_KEY to your .env file"

def msgFetchFailed : String :=
  "Failed to fetch stock data. Please check your connection and try again."

def msgRateLimit : String :=
  "Rate limit exceeded. Please wait a moment before trying again."

/-- An exception escaping the transport layer.  `apiE` models the
`APIError` class of `stock.types.ts` (message plus optional numeric
`status` field); `abortE` models a DOMException with name `AbortError`;
`netE` models any other thrown value (network `TypeError`, JSON parse
failure, property access on `undefined`). -/
inductive ThrownErr where
  | abortE
  | netE
  | apiE (message : String) (status : Option Nat)
deriving DecidableEq, Repr

/-- Outcome of one `fetch(...)` attempt (together with `response.json()`):
the oracle supplied to the retry loop.  `response status body` is a
response whose body parses to `body`. -/
inductive HttpAttempt (α : Type) where
  | response (status : Nat) (body : α)
  | abortErr
  | netErr
deriving DecidableEq, Repr

/-- Models `response.ok`: status in the 200–299 range. -/
def resOk (status : Nat) : Bool :=
  200 ≤ status && status < 300

/-- The retry loop of `StockAPIService.fetchWithRetry`
(`src/services/StockAPIService.ts` lines 35–82), by recursion on the
number of remaining attempts.  `fuel` is `retries - attempt`, so the JS
guard `attempt === retries - 1` is `fuel = 1` (in the body below, after
matching `fuel + 1`, the test `fuel = 0`).  Returns the call's result
together with the list of back-off sleeps performed, in order.

When the loop runs out of attempts without returning (only possible when
`retries = 0`), the JS function resolves with `undefined`; that is the
`.ok none` case.  All callers in the repository pass `retries ≥ 1`. -/
def fetchGo {α : Type} (attempts : Nat → HttpAttempt α) :
    Nat → Nat → Except ThrownErr (Option α) × List Nat
  | 0, _ => (.ok none, [])
  | fuel + 1, attempt =>
    let isLast : Bool := fuel = 0
    match attempts attempt with
    | .abortErr =>
      -- catch: `if (err.name === 'AbortError') throw err` — never retried
      (.error .abortE, [])
    | .netErr =>
      -- catch: non-abort, non-`APIError` rejection
      if isLast then (.error (.apiE msgFetchFailed none), [])
      else
        let r := fetchGo attempts fuel (attempt + 1)
        (r.1, 1000 :: r.2)
    | .response status body =>
      if status = 429 then
        -- rate limited: linear back-off then `continue`, or throw
        -- `APIError(RATE_LIMIT)` on the final attempt
        if isLast then (.error (.apiE msgRateLimit none), [])
        else
          let r := fetchGo attempts fuel (attempt + 1)
          (r.1, (1000 * (attempt + 1)) :: r.2)
      else if ¬ resOk status then
        -- `throw APIError('API request failed: ' + status)` with
        -- `error.status = status`; that throw is caught by the same
        -- loop's catch block, which retries it unless this is the final
        -- attempt (1000 ms fixed back-off before the retry)
        if isLast then
          (.error (.apiE ("API request failed: " ++ toString status) (some status)), [])
        else
          let r := fetchGo attempts fuel (attempt + 1)
          (r.1, 1000 :: r.2)
      else
        (.ok (some body), [])

/-- Model of `StockAPIService.fetchWithRetry` (lines 20–83).  `hasApiKey` models
the truthiness of `FINNHUB_API_KEY`; when it is false the call fails up
front with `APIError(API_KEY_MISSING)`.  The `url` argument of the
source only selects which provider endpoint answers; here the `attempts`
oracle already is that endpoint's behaviour. -/
def fetchWithRetry {α : Type} (hasApiKey : Bool) (attempts : Nat → HttpAttempt α)
    (retries : Nat) : Except ThrownErr (Option α) × List Nat :=
  if hasApiKey then fetchGo attempts retries 0
  else (.error (.apiE msgApiKeyMissing none), [])

/-- Constant `API_RETRY_COUNT` from `constants.ts`. -/
def apiRetryCount : Nat := 3

/-- A current quote (`StockQuote` in `stock.types.ts`). -/
structure StockQuote where
  symbol : String
  price : ℚ
  change : ℚ
  changePercent : ℚ
  previousClose : ℚ
  high : ℚ
  low : ℚ
  openPrice : ℚ
  volume : ℚ
deriving DecidableEq, Repr

/-- Parsed body of the `/quote` endpoint.  `c` is `Option` because the
source checks `typeof data.c !== 'number'`; the other fields default to
`0` through JS `||`. -/
structure QuoteData where
  c : Option ℚ
  d : Option ℚ
  dp : Option ℚ
  pc : Option ℚ
  h : Option ℚ
  l : Option ℚ
  o : Option ℚ
  v : Option ℚ
deriving DecidableEq, Repr

/-- Model of `StockAPIService.getStockQuote` (lines 88–116): one transport call
with the default retry budget, then validation `data.c > 0`.  The
`catch` in the source only logs and rethrows, so errors propagate
unchanged.  The `.ok none` (undefined body, impossible with
`retries = 3`) case models the `TypeError` a property access on
`undefined` would throw. -/
def getStockQuote (hasApiKey : Bool) (symbol : String)
    (attempts : Nat → HttpAttempt QuoteData) : Except ThrownErr StockQuote :=
  match (fetchWithRetry hasApiKey attempts apiRetryCount).1 with
  | .error e => .error e
  | .ok none => .error .netE
  | .ok (some data) =>
    match data.c with
    | none => .error (.apiE ("Invalid data for symbol " ++ symbol) none)
    | some c =>
      if c ≤ 0 then .error (.apiE ("Invalid data for symbol " ++ symbol) none)
      else
        .ok { symbol
              price := c
              change := data.d.getD 0
              changePercent := data.dp.getD 0
              previousClose := data.pc.getD 0
              high := data.h.getD 0
              low := data.l.getD 0
              openPrice := data.o.getD 0
              volume := data.v.getD 0 }

/-- A company profile (`CompanyProfile` in `stock.types.ts`). -/
structure CompanyProfile where
  symbol : String
  name : String
  marketCapitalization : Option ℚ := none
  shareOutstanding : Option ℚ := none
  logo : Option String := none
deriving DecidableEq, Repr

/-- Parsed body of the `/stock/profile2` endpoint. -/
structure ProfileData where
  name : Option String
  marketCapitalization : Option ℚ
  shareOutstanding : Option ℚ
  logo : Option String
deriving DecidableEq, Repr

/-- JS `data.name || symbol`: falls back to the symbol when the name is
absent or the empty string (both falsy). -/
def nameOrSymbol (name : Option String) (symbol : String) : String :=
  match name with
  | none => symbol
  | some n => if n = "" then symbol else n

/-- Model of `StockAPIService.getCompanyProfile` (lines 121–145).  Total: any
error (including cancellation and the undefined-body `TypeError`) is
caught and replaced by the minimal profile `{symbol, name: symbol}`. -/
def getCompanyProfile (hasApiKey : Bool) (symbol : String)
    (attempts : Nat → HttpAttempt ProfileData) : CompanyProfile :=
  match (fetchWithRetry hasApiKey attempts apiRetryCount).1 with
  | .ok (some data) =>
    { symbol
      name := nameOrSymbol data.name symbol
      marketCapitalization := data.marketCapitalization
      shareOutstanding := data.shareOutstanding
      logo := data.logo }
  | _ => { symbol, name := symbol }

/-- Model of `StockAPIService.getBatchStockQuotes` (lines 214–241): sequential
per-symbol fetches; a throwing fetch is caught and skipped, a returned
quote is kept only when `quote.price > 0`.  The pacing `sleep(delayMs)`
has no effect on the result and is not modelled.  `transport` gives each
symbol its per-attempt oracle. -/
def getBatchStockQuotes (hasApiKey : Bool)
    (transport : String → Nat → HttpAttempt QuoteData) :
    List String → List StockQuote
  | [] => []
  | s :: rest =>
    let tail := getBatchStockQuotes hasApiKey transport rest
    match getStockQuote hasApiKey s (transport s) with
    | .ok q => if 0 < q.price then q :: tail else tail
    | .error _ => tail

/-- Model of `StockAPIService.getBatchCompanyProfiles` (lines 246–270): builds a
`Map` keyed by input symbol.  The JS `Map` is modelled as a lookup
function; `Map.set` overwrites, which the `foldl` below reproduces
(later symbols shadow earlier ones).  `getCompanyProfile` never throws,
so the catch in the loop (which would insert the same minimal profile)
is unreachable. -/
def getBatchCompanyProfiles (hasApiKey : Bool)
    (transport : String → Nat → HttpAttempt ProfileData)
    (symbols : List String) : String → Option CompanyProfile :=
  symbols.foldl
    (fun m s => fun k =>
      if k = s then some (getCompanyProfile hasApiKey s (transport s)) else m k)
    (fun _ => none)

/-- One point of a history series.  The ISO date string produced by
`toISOString().split('T')[0]` is modelled by its UTC day number. -/
structure PricePoint where
  date : ℤ
  price : ℚ
deriving DecidableEq, Repr

/-- Type `HistoricalData` from `stock.types.ts`. -/
structure HistoricalData where
  symbol : String
  prices : List PricePoint
deriving DecidableEq, Repr

/-- Models `Number(price.toFixed(2))`: rounding to cents.  (For the positive
prices all claims are about, JS half-away-from-zero agrees with `round`.) -/
def roundCents (p : ℚ) : ℚ :=
  ((round (p * 100) : ℤ) : ℚ) / 100

/-- Parsed body of the `/stock/candle` endpoint: status sentinel `s`,
closing prices `c` (may be absent), epoch-second timestamps `t`. -/
structure CandleData where
  s : String
  c : Option (List ℚ)
  t : List ℤ
deriving DecidableEq, Repr

/-- The guard `data.s !== 'no_data' && data.c && data.c.length > 0`. -/
def candleHasData (d : CandleData) : Bool :=
  d.s ≠ "no_data" &&
    (match d.c with
     | some cs => decide (0 < cs.length)
     | none => false)

/-- Models `new Date(t * 1000).toISOString().split('T')[0]` as a UTC day
number. -/
def epochToDay (t : ℤ) : ℤ :=
  Int.fdiv t 86400

/-- Models `data.c.map((price, index) => ...)` indexing `data.t[index]`: when
`t` is shorter than `c`, the JS code evaluates `toISOString()` on an
invalid date and throws; that exception (caught by the enclosing `try`)
is the `none` case. -/
def mapPrices (cs : List ℚ) (ts : List ℤ) : Option (List PricePoint) :=
  if cs.length ≤ ts.length then
    some ((cs.zip ts).map fun pt => { date := epochToDay pt.2, price := roundCents pt.1 })
  else none

/-- One of the two candle attempts inside `getHistoricalData`
(lines 157–174 and 177–194), each with `retries = 1` and a `try` that
swallows every exception and falls through.  `some ps` is the early
`return {symbol, prices}`; `none` means control continues past this
block (fetch threw, no-data sentinel, or mapping threw). -/
def tryCandle (hasApiKey : Bool) (t : Nat → HttpAttempt CandleData) :
    Option (List PricePoint) :=
  match (fetchWithRetry hasApiKey t 1).1 with
  | .ok (some d) =>
    if candleHasData d then mapPrices (d.c.getD []) d.t else none
  | _ => none

/-- Model of `StockAPIService.getHistoricalData` (lines 151–209).  `t1` and `t2`
are the transports answering the 1-minute-resolution and the
daily-resolution candle requests.  Total by construction: every failure
path — HTTP error (403 included), network failure, cancellation, mapping
exception — ends in `{ symbol, prices := [] }`; no error propagates to
the caller. -/
def getHistoricalData (hasApiKey : Bool) (symbol : String)
    (t1 t2 : Nat → HttpAttempt CandleData) : HistoricalData :=
  match tryCandle hasApiKey t1 with
  | some ps => { symbol, prices := ps }
  | none =>
    match tryCandle hasApiKey t2 with
    | some ps => { symbol, prices := ps }
    | none => { symbol, prices := [] }

/-- The fixed base-price table of `generateDemoChartData`
(`usePerformanceOptimization.ts` lines 104–113). -/
def demoPrices (symbol : String) : Option ℚ :=
  if symbol = "AAPL" then some 175
  else if symbol = "GOOGL" then some 142
  else if symbol = "MSFT" then some 378
  else if symbol = "TSLA" then some 248
  else if symbol = "AMZN" then some 155
  else if symbol = "META" then some 485
  else if symbol = "NVDA" then some 875
  else if symbol = "NFLX" then some 612
  else none

/-- Models `demoPrices[symbol] || (100 + Math.random() * 200)`: `randBase`
models that `Math.random()` draw (only consumed for unknown symbols). -/
def demoBase (randBase : ℚ) (symbol : String) : ℚ :=
  (demoPrices symbol).getD (100 + randBase * 200)

/-- Model of `generateDemoChartData` (lines 100–135).  Oracles: `sinv i` models
`Math.sin(i * 0.2)`, `randNoise i` the `Math.random()` draw of loop
iteration `i`, `randBase` the base-price draw, `today` the current UTC
day number (`new Date()`; `date.setDate(date.getDate() - i)` is `today
- i`).  The JS loop runs `i = 29` down to `0`, pushing one point per
iteration; here iteration `k` of `List.range 30` is loop index
`i = 29 - k`. -/
def generateDemoChartData (sinv : Nat → ℚ) (randBase : ℚ) (randNoise : Nat → ℚ)
    (today : ℤ) (symbol : String) : HistoricalData :=
  let basePrice := demoBase randBase symbol
  let volatility : ℚ := 15 / 1000
  let prices := (List.range 30).map fun (k : ℕ) =>
    let i : ℕ := 29 - k
    let trend := sinv i * (1 / 100)
    let randomChange := (randNoise i - 1 / 2) * volatility
    let price := basePrice * (1 + trend + randomChange)
    ({ date := today - ((29 : ℤ) - (k : ℤ)), price := roundCents price } : PricePoint)
  { symbol, prices }

/-- The state owned by `useChartData` (`usePerformanceOptimization.ts`
lines 142–149): the four `useState` cells plus `currentSymbolRef`. -/
structure ChartState where
  chartData : Option HistoricalData
  loading : Bool
  error : Option String
  isDemoData : Bool
  currentSymbol : Option String
deriving Repr

/-- The synchronous head of `fetchChartData` (lines 154–164): set
loading, clear the error, abort the previous cycle's controller (which
only influences what that cycle's transport resolves with), record the
target as the current symbol. -/
def chartStart (target : String) (st : ChartState) : ChartState :=
  { st with loading := true, error := none, currentSymbol := some target }

/-- The resolution of a live-mode `fetchChartData` cycle for `target`
whose `getHistoricalData` call resolved with `data` (lines 185–217).
Commits only behind the guard `currentSymbolRef.current ===
targetSymbol`; an empty series falls back to demo data (`demo target`
is the series the generator produces at this resolution's random
draws) with `isDemoData = true` and the advisory message; the `finally`
block clears `loading` behind the same guard.  `getHistoricalData`
never throws, so the `catch` of lines 202–212 (including its
`err.status === 403` branch) is unreachable in live mode. -/
def chartResolve (demo : String → HistoricalData) (target : String)
    (data : HistoricalData) (st : ChartState) : ChartState :=
  if st.currentSymbol = some target then
    let st1 :=
      if data.prices = [] then
        { st with
            chartData := some (demo target)
            isDemoData := true
            error := some ("Limited historical data available for " ++ target) }
      else
        { st with chartData := some data, isDemoData := false }
    { st1 with loading := false }
  else st

/-- The generic shape the `catch (err: any)` blocks inspect: a thrown
JS value with `name`, optional `status` and `message` fields. -/
structure JsErrorObj where
  name : String
  status : Option Nat
  message : Option String
deriving DecidableEq, Repr

/-- JS `err.message || 'Failed to fetch stock data'`. -/
def jsMessage (err : JsErrorObj) : String :=
  match err.message with
  | none => "Failed to fetch stock data"
  | some m => if m = "" then "Failed to fetch stock data" else m

/-- The state owned by `useStockData` (`useStockData.ts` lines 28–32). -/
structure WatchlistState where
  stocks : List StockQuote
  profiles : String → Option CompanyProfile
  error : Option String
  loading : Bool
  refreshing : Bool

/-- One complete live-mode `fetchStockData` cycle (`useStockData.ts`
lines 38–101) as a state transformer.  The body first runs
`setError(null)`; the quote batch, the `price > 0` filter, `setStocks`,
the profile batch for the valid symbols, and `setProfiles` follow.  Both
batch orchestrators are total, so in this embedding the only way into
the `catch` block is an injected exception `interrupt` (kept as a
parameter because the claims quantify over the error policy); a real
exception would arise before `setStocks`, so the failure branch leaves
`stocks`/`profiles` untouched.  The `catch` swallows `AbortError` by
name and errors whose `status` is 403; anything else becomes the
user-visible error string.  `finally` clears `loading`/`refreshing`. -/
def fetchStockDataCycle (hasApiKey : Bool)
    (qt : String → Nat → HttpAttempt QuoteData)
    (pt : String → Nat → HttpAttempt ProfileData)
    (symbols : List String) (interrupt : Option JsErrorObj)
    (st : WatchlistState) : WatchlistState :=
  let st1 := { st with error := none }
  match interrupt with
  | some err =>
    let st2 :=
      if err.name = "AbortError" then st1
      else if err.status = some 403 then st1
      else { st1 with error := some (jsMessage err) }
    { st2 with loading := false, refreshing := false }
  | none =>
    let validStocks :=
      (getBatchStockQuotes hasApiKey qt symbols).filter fun q => 0 < q.price
    let profileResults :=
      getBatchCompanyProfiles hasApiKey pt (validStocks.map (·.symbol))
    { st1 with
        stocks := validStocks
        profiles := profileResults
        loading := false
        refreshing := false }

/-- What a watchlist fetch cycle resolves with: the list the quote batch
returns and the profile map the profile batch returns.  (Both depend on
when the cycle's abort signal fired — an aborted batch resolves with the
prefix collected so far — so they are free parameters of the
environment.) -/
structure WatchCycle where
  results : List StockQuote
  profileResults : String → Option CompanyProfile

/-- The watchlist state visible to interleaving reasoning: displayed
data plus the identity of the cycle whose abort controller is current
(`abortControllerRef`). -/
structure WatchlistModelState where
  stocks : List StockQuote
  profiles : String → Option CompanyProfile
  current : Nat

/-- Events of interleaved watchlist fetch cycles.  `start c` is the
synchronous head of cycle `c` (abort the previous controller, install a
fresh one); `resolve c` is cycle `c`'s batches resolving and the
subsequent `setStocks`/`setProfiles`. -/
inductive WatchEvent where
  | start (c : Nat)
  | resolve (c : Nat)

/-- Interleaving semantics of `useStockData.fetchStockData` commits
(lines 62–87).  The commit on `resolve c` is unconditional: the source
compares no generation token and does not consult
`abortControllerRef` before `setStocks`/`setProfiles`, so a superseded
cycle that resolves late still overwrites the visible state.  (Only the
`price > 0` filter of line 77 is applied.) -/
def watchStep (cycles : Nat → WatchCycle) (st : WatchlistModelState) :
    WatchEvent → WatchlistModelState
  | .start c => { st with current := c }
  | .resolve c =>
    { st with
        stocks := (cycles c).results.filter fun q => 0 < q.price
        profiles := (cycles c).profileResults }

/-- Identity of an `AbortSignal` as seen by `fetchWithRetry`: the
caller-supplied `signal` parameter or the signal of the internally
created timeout `AbortController` (lines 29–30). -/
inductive SignalId where
  | caller
  | timeoutCtrl
deriving DecidableEq, Repr

/-- Line 33: `const combinedSignal = signal || controller.signal;` —
despite the comment above it ("Combine external signal with timeout"),
`||` selects the caller's signal whenever one is supplied and drops the
timeout controller's signal entirely. -/
def combinedSignal (extSignal : Option SignalId) (internalSignal : SignalId) : SignalId :=
  extSignal.getD internalSignal

/-- Whether the `fetch` call is aborted, given which signals have fired:
the request only observes the one signal passed in its options
(line 39), namely `combinedSignal`. -/
def requestAborted (fired : SignalId → Bool) (extSignal : Option SignalId) : Bool :=
  fired (combinedSignal extSignal .timeoutCtrl)

/- ------------------------------------------------------------------ -/
/- Claims                                                             -/
/- ------------------------------------------------------------------ -/

/-- C4: the 10-second timeout is NOT composed with a caller-supplied
signal.  `signal || controller.signal` selects the caller's signal when
present, so the timeout controller's abort (`setTimeout(() =>
controller.abort(), API_TIMEOUT)`) never reaches the request: with a
caller signal supplied and only the timeout fired, the request is not
aborted.  (Without a caller signal the timeout does abort the call, as
the last conjunct shows — the composition only fails in the "caller
passes its own cancellation handle" case the claim singles out.) -/
theorem c4_timeout_not_composed :
    combinedSignal (some .caller) .timeoutCtrl = .caller ∧
    requestAborted (fun s => decide (s = .timeoutCtrl)) (some .caller) = false ∧
    requestAborted (fun s => decide (s = .caller)) (some .caller) = true ∧
    requestAborted (fun s => decide (s = .timeoutCtrl)) none = true := by
  decide

/-- Transport oracle for the C2 counterexample: the first attempt
answers HTTP 500, every later attempt answers HTTP 200 with body `7`. -/
def c2Attempts : Nat → HttpAttempt Nat :=
  fun k => if k = 0 then .response 500 0 else .response 200 7

/-- C2 counterexample: an attempt yielding HTTP 500 does NOT fail the
call immediately.  With the default retry budget the call retries after
a 1000 ms back-off and succeeds on the second attempt, so no error
carrying status 500 is surfaced. -/
theorem c2_http_error_retried_cex :
    fetchWithRetry true c2Attempts apiRetryCount = (.ok (some 7), [1000]) ∧
    (fetchWithRetry true c2Attempts apiRetryCount).1 ≠
      .error (.apiE "API request failed: 500" (some 500)) := by
  refine ⟨rfl, ?_⟩
  intro h
  rw [show (fetchWithRetry true c2Attempts apiRetryCount).1 = .ok (some 7) from rfl] at h
  exact Except.noConfusion h

/-- C2 amended: an attempt with a non-2xx, non-429 status raises
`APIError` carrying that status, but the surrounding catch treats it
like a transient failure — on a non-final attempt the loop sleeps
1000 ms and retries, and only on the final attempt does the call fail
with the status-carrying error. -/
theorem c2_http_error_amended {α : Type} (attempts : Nat → HttpAttempt α)
    (fuel attempt status : Nat) (body : α)
    (hatt : attempts attempt = .response status body)
    (h429 : status ≠ 429) (hok : resOk status = false) :
    fetchGo attempts (fuel + 2) attempt =
      ((fetchGo attempts (fuel + 1) (attempt + 1)).1,
        1000 :: (fetchGo attempts (fuel + 1) (attempt + 1)).2) ∧
    fetchGo attempts 1 attempt =
      (.error (.apiE ("API request failed: " ++ toString status) (some status)), []) := by
  constructor
  · simp [fetchGo, hatt, h429, hok]
  · simp [fetchGo, hatt, h429, hok]

/-- Witness for `c2_http_error_amended` at the concrete transport
`c2Attempts` (500 on attempt 0). -/
theorem c2_http_error_amended_witness :
    fetchGo c2Attempts 2 0 =
      ((fetchGo c2Attempts 1 1).1, 1000 :: (fetchGo c2Attempts 1 1).2) ∧
    fetchGo c2Attempts 1 0 =
      (.error (.apiE ("API request failed: " ++ toString 500) (some 500)), []) :=
  c2_http_error_amended c2Attempts 0 0 500 0 rfl (by decide) (by decide)

/-- C7: a quote fetch that is rate-limited on its first two attempts
and succeeds on the third returns the quote with no error; the back-off
slept before retry attempt `k` is `1000 ms × k` (so `[1000, 2000]`,
3000 ms in total); and a call whose whole default budget of 3 attempts
is rate-limited fails with the `RateLimitError` message. -/
theorem c7_rate_limit_retry (b0 b1 qd : QuoteData) (c : ℚ) (symbol : String)
    (att altAtt : Nat → HttpAttempt QuoteData)
    (h0 : att 0 = .response 429 b0) (h1 : att 1 = .response 429 b1)
    (h2 : att 2 = .response 200 qd) (hc : qd.c = some c) (hpos : 0 < c) :
    getStockQuote true symbol att =
      .ok { symbol
            price := c
            change := qd.d.getD 0
            changePercent := qd.dp.getD 0
            previousClose := qd.pc.getD 0
            high := qd.h.getD 0
            low := qd.l.getD 0
            openPrice := qd.o.getD 0
            volume := qd.v.getD 0 } ∧
    (fetchWithRetry true att apiRetryCount).2 = [1000, 2000] ∧
    (fetchWithRetry true att apiRetryCount).2.sum = 3000 ∧
    ((∀ k, k < 3 → altAtt k = .response 429 b0) →
      fetchWithRetry true altAtt apiRetryCount =
        (.error (.apiE msgRateLimit none), [1000, 2000])) := by
  have hfetch : fetchWithRetry true att apiRetryCount = (.ok (some qd), [1000, 2000]) := by
    simp [fetchWithRetry, apiRetryCount, fetchGo, h0, h1, h2, resOk]
  refine ⟨?_, ?_, ?_, ?_⟩
  · simp [getStockQuote, hfetch, hc, not_le.mpr hpos]
  · rw [hfetch]
  · rw [hfetch]; norm_num
  · intro hall
    have a0 := hall 0 (by norm_num)
    have a1 := hall 1 (by norm_num)
    have a2 := hall 2 (by norm_num)
    simp [fetchWithRetry, apiRetryCount, fetchGo, a0, a1, a2]

/-- A successful quote body with closing price 5. -/
def c7Body : QuoteData :=
  { c := some 5, d := none, dp := none, pc := none, h := none, l := none,
    o := none, v := none }

/-- An irrelevant body carried by rate-limited responses. -/
def c7Empty : QuoteData :=
  { c := none, d := none, dp := none, pc := none, h := none, l := none,
    o := none, v := none }

/-- C7 transport: 429 on the first two attempts, success on the third. -/
def c7Att : Nat → HttpAttempt QuoteData :=
  fun k => if k = 0 then .response 429 c7Empty
    else if k = 1 then .response 429 c7Empty
    else .response 200 c7Body

/-- C7 transport that is rate-limited on every attempt. -/
def c7AttAll429 : Nat → HttpAttempt QuoteData :=
  fun _ => .response 429 c7Empty

/-- Witness for `c7_rate_limit_retry` at the concrete transports. -/
theorem c7_rate_limit_retry_witness :
    getStockQuote true "AAPL" c7Att =
      .ok { symbol := "AAPL", price := 5, change := 0, changePercent := 0,
            previousClose := 0, high := 0, low := 0, openPrice := 0, volume := 0 } ∧
    (fetchWithRetry true c7Att apiRetryCount).2 = [1000, 2000] ∧
    (fetchWithRetry true c7Att apiRetryCount).2.sum = 3000 ∧
    fetchWithRetry true c7AttAll429 apiRetryCount =
      (.error (.apiE msgRateLimit none), [1000, 2000]) := by
  have h := c7_rate_limit_retry c7Empty c7Empty c7Body 5 "AAPL" c7Att c7AttAll429
    rfl rfl rfl rfl (by norm_num)
  exact ⟨h.1, h.2.1, h.2.2.1, h.2.2.2 (by intro k hk; rfl)⟩

/-- What the batch-quote loop keeps of one symbol: its quote when the
fetch succeeded and passed the `price > 0` filter, nothing otherwise. -/
def quoteKeep (hasApiKey : Bool) (transport : String → Nat → HttpAttempt QuoteData)
    (s : String) : Option StockQuote :=
  match getStockQuote hasApiKey s (transport s) with
  | .ok q => if 0 < q.price then some q else none
  | .error _ => none

/-- C5: every quote the batch returns has `price > 0`; a symbol whose
fetch failed or whose quote fell to the filter is silently absent; and
the batch equals the input list filter-mapped through `quoteKeep`, so
surviving quotes appear in input order and the batch never aborts as a
whole. -/
theorem c5_batch_quotes_valid_ordered (hasApiKey : Bool)
    (transport : String → Nat → HttpAttempt QuoteData) (symbols : List String) :
    (∀ q ∈ getBatchStockQuotes hasApiKey transport symbols, 0 < q.price) ∧
    getBatchStockQuotes hasApiKey transport symbols =
      symbols.filterMap (quoteKeep hasApiKey transport) := by
  induction symbols with
  | nil => simp [getBatchStockQuotes]
  | cons s rest ih =>
    constructor
    · intro q hq
      rw [getBatchStockQuotes] at hq
      revert hq
      cases hres : getStockQuote hasApiKey s (transport s) with
      | ok q0 =>
        by_cases hp : 0 < q0.price
        · simp only [hp, if_pos, List.mem_cons]
          rintro (rfl | hq)
          · exact hp
          · exact ih.1 q hq
        · simp only [hp, if_neg, not_false_iff]
          exact ih.1 q
      | error e => exact ih.1 q
    · rw [getBatchStockQuotes, List.filterMap_cons]
      cases hres : getStockQuote hasApiKey s (transport s) with
      | ok q0 =>
        by_cases hp : 0 < q0.price
        · have hk : quoteKeep hasApiKey transport s = some q0 := by
            simp [quoteKeep, hres, hp]
          rw [hk]; simp [ih.2, hp]
        · have hk : quoteKeep hasApiKey transport s = none := by
            simp [quoteKeep, hres, hp]
          rw [hk]; simp [hp, ih.2]
      | error e =>
        have hk : quoteKeep hasApiKey transport s = none := by
          simp [quoteKeep, hres]
        rw [hk]; simp [ih.2]

/-- C5 witness transport: symbol "A" answers with closing price 5,
symbol "Z" always times out at the network level, any other symbol
answers with closing price 0 (an invalid quote). -/
def c5Transport : String → Nat → HttpAttempt QuoteData :=
  fun s _ =>
    if s = "A" then .response 200 c7Body
    else if s = "Z" then .netErr
    else .response 200 { c7Body with c := some 0 }

/-- The one quote that survives the C5 witness batch. -/
def c5Quote : StockQuote :=
  { symbol := "A", price := 5, change := 0, changePercent := 0, previousClose := 0,
    high := 0, low := 0, openPrice := 0, volume := 0 }

/-- Witness for `c5_batch_quotes_valid_ordered`: on `["A", "Z", "B"]`
only "A"'s quote survives, it has positive price, and the batch agrees
with the filter-map normal form. -/
theorem c5_batch_quotes_valid_ordered_witness :
    0 < c5Quote.price ∧
    getBatchStockQuotes true c5Transport ["A", "Z", "B"] =
      ["A", "Z", "B"].filterMap (quoteKeep true c5Transport) := by
  have h := c5_batch_quotes_valid_ordered true c5Transport ["A", "Z", "B"]
  refine ⟨h.1 c5Quote ?_, h.2⟩
  rw [show getBatchStockQuotes true c5Transport ["A", "Z", "B"] = [c5Quote] from rfl]
  exact List.mem_singleton.mpr rfl

/-- The profile-map lookup after the batch loop: `s ∈ symbols` hits the
value of the symbol's own `getCompanyProfile` call (later duplicates
overwrite earlier ones with the same value), anything else misses. -/
theorem getBatchCompanyProfiles_lookup (hasApiKey : Bool)
    (transport : String → Nat → HttpAttempt ProfileData) :
    ∀ (symbols : List String) (m : String → Option CompanyProfile) (s : String),
      (symbols.foldl
        (fun m s => fun k =>
          if k = s then some (getCompanyProfile hasApiKey s (transport s)) else m k)
        m) s =
        if s ∈ symbols then some (getCompanyProfile hasApiKey s (transport s)) else m s := by
  intro symbols
  induction symbols with
  | nil => intro m s; simp
  | cons a rest ih =>
    intro m s
    rw [List.foldl_cons, ih]
    by_cases hr : s ∈ rest
    · simp [hr]
    · by_cases ha : s = a
      · subst ha; simp [hr]
      · simp [hr, ha]

/-- C6: the batch profile map contains a key for every input symbol —
bound to that symbol's `getCompanyProfile` result — and when the
symbol's transport call fails, that result is the minimal fallback
profile `{symbol, name: symbol}` rather than an omission. -/
theorem c6_batch_profiles_total (hasApiKey : Bool)
    (transport : String → Nat → HttpAttempt ProfileData)
    (symbols : List String) (s : String) (hmem : s ∈ symbols) :
    getBatchCompanyProfiles hasApiKey transport symbols s =
      some (getCompanyProfile hasApiKey s (transport s)) ∧
    (∀ e, (fetchWithRetry hasApiKey (transport s) apiRetryCount).1 = .error e →
      getCompanyProfile hasApiKey s (transport s) = { symbol := s, name := s }) := by
  constructor
  · rw [getBatchCompanyProfiles, getBatchCompanyProfiles_lookup hasApiKey transport symbols _ s]
    simp [hmem]
  · intro e he
    rw [getCompanyProfile, he]

/-- C6 witness transport: "A" answers a full profile, "B" always fails
at the network level. -/
def c6Transport : String → Nat → HttpAttempt ProfileData :=
  fun s _ =>
    if s = "A" then
      .response 200 { name := some "Apple Inc.", marketCapitalization := some 2750,
                      shareOutstanding := some 156, logo := none }
    else .netErr

/-- Witness for `c6_batch_profiles_total`: "B"'s fetch fails, yet the
map still has a key for "B", bound to the minimal fallback profile. -/
theorem c6_batch_profiles_total_witness :
    getBatchCompanyProfiles true c6Transport ["A", "B"] "B" =
      some (getCompanyProfile true "B" (c6Transport "B")) ∧
    getCompanyProfile true "B" (c6Transport "B") = { symbol := "B", name := "B" } := by
  have h := c6_batch_profiles_total true c6Transport ["A", "B"] "B"
    (by simp)
  exact ⟨h.1, h.2 (.apiE msgFetchFailed none) rfl⟩

/-- C10: `getHistoricalData` is total at its interface (in this
embedding it is a plain function — every exception path of the source,
fetch errors and mapping errors alike, is internalized): the returned
record always carries the input symbol, and whenever both candle
attempts fail — with any transport errors, HTTP 403 and cancellation
included — or otherwise yield no usable data, the result is the empty
price list rather than a propagated error. -/
theorem c10_historical_total (hasApiKey : Bool) (symbol : String)
    (t1 t2 : Nat → HttpAttempt CandleData) :
    (getHistoricalData hasApiKey symbol t1 t2).symbol = symbol ∧
    (∀ e1 e2, (fetchWithRetry hasApiKey t1 1).1 = .error e1 →
      (fetchWithRetry hasApiKey t2 1).1 = .error e2 →
      (getHistoricalData hasApiKey symbol t1 t2).prices = []) ∧
    (tryCandle hasApiKey t1 = none → tryCandle hasApiKey t2 = none →
      (getHistoricalData hasApiKey symbol t1 t2).prices = []) := by
  refine ⟨?_, ?_, ?_⟩
  · rw [getHistoricalData]
    cases tryCandle hasApiKey t1 <;> [skip; simp]
    cases tryCandle hasApiKey t2 <;> simp
  · intro e1 e2 he1 he2
    have h1 : tryCandle hasApiKey t1 = none := by simp [tryCandle, he1]
    have h2 : tryCandle hasApiKey t2 = none := by simp [tryCandle, he2]
    simp [getHistoricalData, h1, h2]
  · intro h1 h2
    simp [getHistoricalData, h1, h2]

/-- A transport whose every attempt is answered with HTTP 403. -/
def t403 : Nat → HttpAttempt CandleData :=
  fun _ => .response 403 { s := "no_data", c := none, t := [] }

/-- A transport whose every attempt is aborted (cancellation). -/
def tAborted : Nat → HttpAttempt CandleData :=
  fun _ => .abortErr

/-- Witness for `c10_historical_total`: first candle attempt rejected
with HTTP 403, second cancelled — the result still carries the symbol
and has the empty price list. -/
theorem c10_historical_total_witness :
    (getHistoricalData true "AAPL" t403 tAborted).symbol = "AAPL" ∧
    (getHistoricalData true "AAPL" t403 tAborted).prices = [] := by
  have h := c10_historical_total true "AAPL" t403 tAborted
  exact ⟨h.1, h.2.1 (.apiE ("API request failed: " ++ toString 403) (some 403)) .abortE rfl rfl⟩

/-- The demo generator at the concrete random draws used by the C3
counterexample: `Math.sin ≡ 0`, every `Math.random()` draw `1/2`,
today = day 0. -/
def c3Demo : String → HistoricalData :=
  generateDemoChartData (fun _ => 0) 0 (fun _ => (1 : ℚ) / 2) 0

/-- The chart state right after `fetchChartData("TSLA")` has run its
synchronous head on a fresh controller. -/
def c3Started : ChartState :=
  chartStart "TSLA"
    { chartData := none, loading := false, error := none, isDemoData := false,
      currentSymbol := none }

/-- The final state of the C3 scenario: live mode, both provider candle
calls fail with HTTP 403, the cycle resolves while "TSLA" is still
current. -/
def c3Final : ChartState :=
  chartResolve c3Demo "TSLA" (getHistoricalData true "TSLA" t403 t403) c3Started

/-- C3 counterexample: when the provider history call fails with HTTP
403, the final chart state is NOT an empty series with
`isDemoData = false` and a paid-plan advisory.  `getHistoricalData`
swallows the 403 and returns an empty series, so the controller takes
its empty-series fallback: synthesized demo data (30 points),
`isDemoData = true`, and the "Limited historical data available"
advisory.  The paid-plan branch (`err.status === 403` in the
controller's catch) is unreachable because `getHistoricalData` never
throws. -/
theorem c3_forbidden_demo_fallback_cex :
    c3Final.isDemoData = true ∧
    c3Final.error = some "Limited historical data available for TSLA" ∧
    c3Final.error ≠ some "Historical data requires paid plan for TSLA" ∧
    c3Final.chartData.map (fun hd => hd.prices.length) = some 30 := by
  refine ⟨rfl, rfl, by decide, rfl⟩

/-- C3 amended: in live mode a provider-side HTTP 403 on both candle
attempts reaches the chart controller as an empty series (the service
swallows the error), and the controller's final state for the still-
current symbol is synthesized demo data with `isDemoData = true` and
the advisory error "Limited historical data available for {symbol}" —
not an empty visible series, and not the paid-plan message. -/
theorem c3_forbidden_amended (hasApiKey : Bool) (demo : String → HistoricalData)
    (target : String) (st : ChartState) (t1 t2 : Nat → HttpAttempt CandleData)
    (m1 m2 : String)
    (he1 : (fetchWithRetry hasApiKey t1 1).1 = .error (.apiE m1 (some 403)))
    (he2 : (fetchWithRetry hasApiKey t2 1).1 = .error (.apiE m2 (some 403)))
    (hcur : st.currentSymbol = some target) :
    (getHistoricalData hasApiKey target t1 t2).prices = [] ∧
    (chartResolve demo target (getHistoricalData hasApiKey target t1 t2) st).isDemoData
      = true ∧
    (chartResolve demo target (getHistoricalData hasApiKey target t1 t2) st).chartData
      = some (demo target) ∧
    (chartResolve demo target (getHistoricalData hasApiKey target t1 t2) st).error
      = some ("Limited historical data available for " ++ target) ∧
    (chartResolve demo target (getHistoricalData hasApiKey target t1 t2) st).loading
      = false := by
  have h1 : tryCandle hasApiKey t1 = none := by simp [tryCandle, he1]
  have h2 : tryCandle hasApiKey t2 = none := by simp [tryCandle, he2]
  have hdata : getHistoricalData hasApiKey target t1 t2 =
      { symbol := target, prices := [] } := by
    simp [getHistoricalData, h1, h2]
  rw [hdata]
  simp [chartResolve, hcur]

/-- Witness for `c3_forbidden_amended` at the concrete 403 transports
and the started "TSLA" controller state. -/
theorem c3_forbidden_amended_witness :
    (getHistoricalData true "TSLA" t403 t403).prices = [] ∧
    c3Final.isDemoData = true ∧
    c3Final.chartData = some (c3Demo "TSLA") ∧
    c3Final.error = some ("Limited historical data available for " ++ "TSLA") ∧
    c3Final.loading = false :=
  c3_forbidden_amended true c3Demo "TSLA" c3Started t403 t403
    ("API request failed: " ++ toString 403) ("API request failed: " ++ toString 403)
    rfl rfl rfl

/-- Any run of consecutive watchlist cycles that all fail with
`AbortError` leaves the visible error field `none`: each such cycle
clears the error on entry and its catch swallows the abort. -/
lemma abortErrorFold (hasApiKey : Bool) (qt : String → Nat → HttpAttempt QuoteData)
    (pt : String → Nat → HttpAttempt ProfileData) (symbols : List String) :
    ∀ (errs : List JsErrorObj) (st : WatchlistState), errs ≠ [] →
      (∀ e ∈ errs, e.name = "AbortError") →
      (errs.foldl
        (fun s e => fetchStockDataCycle hasApiKey qt pt symbols (some e) s) st).error
        = none := by
  intro errs
  induction errs with
  | nil => intro st h; exact absurd rfl h
  | cons e rest ih =>
    intro st _ hall
    rw [List.foldl_cons]
    by_cases hr : rest = []
    · subst hr
      rw [List.foldl_nil]
      have he : e.name = "AbortError" := hall e (List.mem_cons_self e [])
      simp [fetchStockDataCycle, he]
    · exact ih _ hr fun x hx => hall x (List.mem_cons_of_mem _ hx)

/-- C9: after a failing watchlist fetch cycle, a cancellation
(`AbortError`) or an HTTP 403 error never sets the user-visible error
field (and any run of rapidly superseded, cancelled cycles leaves it
`none`); every other error sets a visible message; and in all failure
cases the displayed stocks list and profile map are untouched. -/
theorem c9_watchlist_error_policy (hasApiKey : Bool)
    (qt : String → Nat → HttpAttempt QuoteData)
    (pt : String → Nat → HttpAttempt ProfileData)
    (symbols : List String) (st : WatchlistState) (err : JsErrorObj) :
    (err.name = "AbortError" →
      (fetchStockDataCycle hasApiKey qt pt symbols (some err) st).error = none) ∧
    (err.status = some 403 →
      (fetchStockDataCycle hasApiKey qt pt symbols (some err) st).error = none) ∧
    (err.name ≠ "AbortError" → err.status ≠ some 403 →
      (fetchStockDataCycle hasApiKey qt pt symbols (some err) st).error
        = some (jsMessage err)) ∧
    (fetchStockDataCycle hasApiKey qt pt symbols (some err) st).stocks = st.stocks ∧
    (fetchStockDataCycle hasApiKey qt pt symbols (some err) st).profiles = st.profiles ∧
    (∀ errs : List JsErrorObj, errs ≠ [] → (∀ e ∈ errs, e.name = "AbortError") →
      (errs.foldl
        (fun s e => fetchStockDataCycle hasApiKey qt pt symbols (some e) s) st).error
        = none) := by
  refine ⟨?_, ?_, ?_, ?_, ?_, fun errs => abortErrorFold hasApiKey qt pt symbols errs st⟩
  · intro hn; simp [fetchStockDataCycle, hn]
  · intro hs
    by_cases hn : err.name = "AbortError" <;> simp [fetchStockDataCycle, hn, hs]
  · intro hn hs
    simp [fetchStockDataCycle, hn, hs]
  · by_cases hn : err.name = "AbortError" <;>
      by_cases hs : err.status = some 403 <;>
      simp [fetchStockDataCycle, hn, hs]
  · by_cases hn : err.name = "AbortError" <;>
      by_cases hs : err.status = some 403 <;>
      simp [fetchStockDataCycle, hn, hs]

/-- A displayed watchlist state carrying data from an earlier cycle. -/
def c9St : WatchlistState :=
  { stocks := [c5Quote], profiles := fun _ => none, error := some "stale error",
    loading := true, refreshing := true }

/-- A cancellation error as thrown by an aborted `fetch`. -/
def c9Abort : JsErrorObj :=
  { name := "AbortError", status := none, message := some "The user aborted a request." }

/-- An `APIError` carrying HTTP status 500. -/
def c9Err500 : JsErrorObj :=
  { name := "APIError", status := some 500, message := some "API request failed: 500" }

/-- An `APIError` carrying HTTP status 403. -/
def c9Err403 : JsErrorObj :=
  { name := "APIError", status := some 403, message := some "API request failed: 403" }

/-- Witness for `c9_watchlist_error_policy` at concrete failing cycles
over a stale displayed state. -/
theorem c9_watchlist_error_policy_witness :
    (fetchStockDataCycle true c5Transport c6Transport ["A"] (some c9Abort) c9St).error
      = none ∧
    (fetchStockDataCycle true c5Transport c6Transport ["A"] (some c9Err403) c9St).error
      = none ∧
    (fetchStockDataCycle true c5Transport c6Transport ["A"] (some c9Err500) c9St).error
      = some (jsMessage c9Err500) ∧
    (fetchStockDataCycle true c5Transport c6Transport ["A"] (some c9Err500) c9St).stocks
      = c9St.stocks ∧
    ([c9Abort, c9Abort].foldl
      (fun s e => fetchStockDataCycle true c5Transport c6Transport ["A"] (some e) s)
      c9St).error = none := by
  refine ⟨?_, ?_, ?_, ?_, ?_⟩
  · exact (c9_watchlist_error_policy true c5Transport c6Transport ["A"] c9St c9Abort).1 rfl
  · exact (c9_watchlist_error_policy true c5Transport c6Transport ["A"] c9St c9Err403).2.1 rfl
  · exact (c9_watchlist_error_policy true c5Transport c6Transport ["A"] c9St c9Err500).2.2.1
      (by decide) (by decide)
  · exact (c9_watchlist_error_policy true c5Transport c6Transport ["A"] c9St c9Err500).2.2.2.1
  · exact (c9_watchlist_error_policy true c5Transport c6Transport ["A"] c9St c9Abort).2.2.2.2.2
      [c9Abort, c9Abort] (by decide) (by intro e he; simp at he; rw [he]; rfl)

/-- The demo base price is at least 100: every fixed entry of the table
is, and the random fallback is `100 + randBase * 200` with
`randBase ≥ 0`. -/
lemma demoBase_ge (randBase : ℚ) (symbol : String) (hb : 0 ≤ randBase) :
    100 ≤ demoBase randBase symbol := by
  unfold demoBase demoPrices
  split_ifs <;> simp <;> nlinarith

/-- Rounding via `toFixed(2)` keeps a price that is at least 1 strictly
positive. -/
lemma roundCents_pos (p : ℚ) (hp : 1 ≤ p) : 0 < roundCents p := by
  unfold roundCents
  have h2 := sub_half_lt_round (p * 100)
  have h1 : (0 : ℚ) < ((round (p * 100) : ℤ) : ℚ) := by nlinarith
  exact div_pos h1 (by norm_num)

/-- C8: for every symbol and any random draws in their JS ranges
(`Math.sin ∈ [-1, 1]`, `Math.random() ∈ [0, 1)`), the demo series has
exactly 30 daily points, strictly ascending dates whose last is the
current day, every price strictly positive, and a base price of at
least 100 (for the fixed table entries as well as for unknown
symbols). -/
theorem c8_demo_series_shape (sinv : Nat → ℚ) (randBase : ℚ) (randNoise : Nat → ℚ)
    (today : ℤ) (symbol : String)
    (hsin : ∀ i, |sinv i| ≤ 1) (hb0 : 0 ≤ randBase) (hb1 : randBase < 1)
    (hn : ∀ i, 0 ≤ randNoise i ∧ randNoise i < 1) :
    (generateDemoChartData sinv randBase randNoise today symbol).prices.length = 30 ∧
    List.Chain' (fun p q : PricePoint => p.date < q.date)
      (generateDemoChartData sinv randBase randNoise today symbol).prices ∧
    ((generateDemoChartData sinv randBase randNoise today symbol).prices.getLast?).map
      PricePoint.date = some today ∧
    (∀ p ∈ (generateDemoChartData sinv randBase randNoise today symbol).prices,
      0 < p.price) ∧
    100 ≤ demoBase randBase symbol := by
  refine ⟨?_, ?_, ?_, ?_, demoBase_ge randBase symbol hb0⟩
  · simp [generateDemoChartData]
  · rw [List.chain'_iff_get]
    intro i hlen
    simp only [generateDemoChartData, List.length_map, List.length_range] at hlen
    simp only [generateDemoChartData, List.get_map, List.get_range]
    push_cast
    omega
  · simp only [generateDemoChartData]
    rw [show (30 : ℕ) = 29 + 1 from rfl, List.range_succ, List.map_append]
    simp
  · intro p hp
    simp only [generateDemoChartData, List.mem_map, List.mem_range] at hp
    obtain ⟨k, hk, rfl⟩ := hp
    have hbase := demoBase_ge randBase symbol hb0
    have hs := abs_le.mp (hsin (29 - k))
    have hr := hn (29 - k)
    apply roundCents_pos
    have hfac : (393 / 400 : ℚ) ≤
        1 + sinv (29 - k) * (1 / 100) + (randNoise (29 - k) - 1 / 2) * (15 / 1000) := by
      nlinarith [hs.1, hs.2, hr.1, hr.2]
    calc (1 : ℚ) ≤ 100 * (393 / 400) := by norm_num
    _ ≤ demoBase randBase symbol *
        (1 + sinv (29 - k) * (1 / 100) + (randNoise (29 - k) - 1 / 2) * (15 / 1000)) := by
      apply mul_le_mul hbase hfac (by norm_num) (by linarith)

/-- Witness for `c8_demo_series_shape`: unknown symbol, `sin ≡ 0`,
base draw 0, noise draws 1/2, today = day 0. -/
theorem c8_demo_series_shape_witness :
    (generateDemoChartData (fun _ => 0) 0 (fun _ => (1 : ℚ) / 2) 0 "ZZZZ").prices.length
      = 30 ∧
    List.Chain' (fun p q : PricePoint => p.date < q.date)
      (generateDemoChartData (fun _ => 0) 0 (fun _ => (1 : ℚ) / 2) 0 "ZZZZ").prices ∧
    (((generateDemoChartData (fun _ => 0) 0 (fun _ => (1 : ℚ) / 2) 0 "ZZZZ").prices.getLast?).map
      PricePoint.date) = some 0 ∧
    100 ≤ demoBase 0 "ZZZZ" := by
  have h := c8_demo_series_shape (fun _ => 0) 0 (fun _ => (1 : ℚ) / 2) 0 "ZZZZ"
    (fun i => by norm_num) (by norm_num) (by norm_num) (fun i => by norm_num)
  exact ⟨h.1, h.2.1, h.2.2.1, h.2.2.2.2⟩

/-- Quote committed by the older watchlist cycle of the C1 trace. -/
def c1QuoteOld : StockQuote :=
  { symbol := "AAPL", price := 1, change := 0, changePercent := 0, previousClose := 0,
    high := 0, low := 0, openPrice := 0, volume := 0 }

/-- Quote committed by the newer watchlist cycle of the C1 trace. -/
def c1QuoteNew : StockQuote :=
  { symbol := "AAPL", price := 2, change := 0, changePercent := 0, previousClose := 0,
    high := 0, low := 0, openPrice := 0, volume := 0 }

/-- The two fetch cycles of the C1 trace: cycle 0 (older) resolves with
the old quote, cycle 1 (newer) with the new one. -/
def c1Cycles : Nat → WatchCycle :=
  fun c =>
    if c = 0 then { results := [c1QuoteOld], profileResults := fun _ => none }
    else { results := [c1QuoteNew], profileResults := fun _ => none }

/-- A fresh watchlist controller before any cycle. -/
def c1Init : WatchlistModelState :=
  { stocks := [], profiles := fun _ => none, current := 0 }

/-- The C1 interleaving: cycle 0 starts; cycle 1 starts while 0 is
still in flight (aborting 0's signal); cycle 1 resolves; cycle 0
resolves last. -/
def c1Trace : List WatchEvent :=
  [.start 0, .start 1, .resolve 1, .resolve 0]

/-- C1 counterexample: the watchlist controller has no generation
token — `fetchStockData` commits `setStocks`/`setProfiles` without any
staleness check — so when the superseded cycle resolves after the
newest one, the visible stock list is the superseded cycle's result,
not the newest cycle's. -/
theorem c1_watchlist_stale_commit_cex :
    (c1Trace.foldl (watchStep c1Cycles) c1Init).stocks = [c1QuoteOld] ∧
    (c1Trace.foldl (watchStep c1Cycles) c1Init).stocks ≠
      ((c1Cycles 1).results.filter fun q => 0 < q.price) := by
  refine ⟨rfl, ?_⟩
  rw [show (c1Trace.foldl (watchStep c1Cycles) c1Init).stocks = [c1QuoteOld] from rfl,
    show ((c1Cycles 1).results.filter fun q => 0 < q.price) = [c1QuoteNew] from rfl]
  decide

/-- C1 amended: supersession holds for the chart controller — a
resolution whose target symbol is no longer current is discarded
wholesale (state unchanged) — but not for the watchlist controller,
whose resolve commit is unconditional: it installs the resolved
cycle's filtered results whether or not that cycle is still the
current one. -/
theorem c1_supersession_amended
    (demo : String → HistoricalData) (target : String) (data : HistoricalData)
    (cst : ChartState) (hstale : cst.currentSymbol ≠ some target)
    (cycles : Nat → WatchCycle) (wst : WatchlistModelState) (c : Nat) :
    chartResolve demo target data cst = cst ∧
    (watchStep cycles wst (.resolve c)).stocks =
      ((cycles c).results.filter fun q => 0 < q.price) ∧
    (watchStep cycles wst (.resolve c)).profiles = (cycles c).profileResults := by
  refine ⟨?_, rfl, rfl⟩
  rw [chartResolve, if_neg hstale]

/-- Witness for `c1_supersession_amended`: a resolution for "TSLA"
arriving while "AAPL" is current leaves the chart state unchanged, and
the watchlist resolve of the superseded cycle 0 (while cycle 1 is
current) still installs cycle 0's results. -/
theorem c1_supersession_amended_witness :
    chartResolve c3Demo "TSLA" { symbol := "TSLA", prices := [] }
      { chartData := none, loading := true, error := none, isDemoData := false,
        currentSymbol := some "AAPL" } =
      { chartData := none, loading := true, error := none, isDemoData := false,
        currentSymbol := some "AAPL" } ∧
    (watchStep c1Cycles { stocks := [c1QuoteNew], profiles := fun _ => none, current := 1 }
      (.resolve 0)).stocks = ((c1Cycles 0).results.filter fun q => 0 < q.price) ∧
    (watchStep c1Cycles { stocks := [c1QuoteNew], profiles := fun _ => none, current := 1 }
      (.resolve 0)).profiles = (c1Cycles 0).profileResults := by
  exact c1_supersession_amended c3Demo "TSLA" { symbol := "TSLA", prices := [] }
    { chartData := none, loading := true, error := none, isDemoData := false,
      currentSymbol := some "AAPL" }
    (by simp) c1Cycles
    { stocks := [c1QuoteNew], profiles := fun _ => none, current := 1 } 0

end StockDashboard
